import Mathlib

/-!
Shallow embedding of `src/fig_data_challenge/main.py`, a one-shot ETL script
built on polars and SQLAlchemy: it reads two spreadsheet sheets, cleans and
joins them, normalizes the result into five tables and loads them into a
relational database, resolving foreign keys by reading generated ids back.

Modelling conventions.  A nullable column cell is an `Option String`; a
database integer id is an `Int`; a dataframe is a list of row structures.
The polars operations used by the script are modelled on lists following
polars 0.20.x semantics:

* a left join keeps the left row order, repeats a left row once per matching
  right row, keeps unmatched left rows paired with a null right side, and
  drops the right key columns; null keys never match (`join_nulls=False`);
* `str.to_datetime(fmt)` is strict by default: a non-null string that fails
  to parse under `fmt` raises a `ComputeError`, while null entries stay
  null (and are then filled by `fill_null`);
* `with_columns(series)` requires the series length to equal the frame
  height, except that a series of length one is broadcast; any other
  mismatch raises a `ShapeError`;
* `unique()` keeps one copy of each distinct row;
* `Expr.replace(mapping, return_dtype=Int64)` maps values that match a key
  of the mapping to the associated value and keeps non-matching values,
  cast non-strictly to `Int64` (the cast yields null when it fails);
* `write_database` issues SQL inserts against the table created by the
  SQLAlchemy DDL of this script, so a row that violates a `nullable=False`
  column constraint makes the insert raise an `IntegrityError`.
-/

/-- A datetime value at second granularity, standing for the Python
`datetime` objects produced by `str.to_datetime` and `datetime(2023,1,1)`. -/
structure PyDateTime where
  year : Nat
  month : Nat
  day : Nat
  hour : Nat
  minute : Nat
  sec : Nat
deriving DecidableEq, Repr

/-- The fallback instant `datetime(2023, 1, 1, 0, 0, 0, 0)` of line 78. -/
def defaultValidFrom : PyDateTime := ⟨2023, 1, 1, 0, 0, 0⟩

/-- A row of the sheet `Restaurant Menu Items` with the columns the script
touches: `Product Name`, `Ingredients on Product Page`,
`Allergens and Warnings`, `URL of primary product picture`, `Store`,
`Product category`, `Fig Category 1` and the blank-header date column. -/
structure RawRow where
  productName : Option String
  ingredients : Option String
  allergens : Option String
  pictureUrl : Option String
  store : Option String
  productCategory : Option String
  figCategory1 : Option String
  dateStr : Option String
deriving DecidableEq, Repr

/-- A row of the sheet `Reference categories` with its two required columns
`Restaurant name` and `Restaurant original category`. -/
structure CatRow where
  restaurantName : Option String
  restaurantOriginalCategory : Option String
deriving DecidableEq, Repr

/-- A row of the cleaned wide table after the `select` and `rename` of
lines 86-102. -/
structure CleanRow where
  name : Option String
  ingredients : Option String
  allergens : Option String
  picture : Option String
  restaurant : Option String
  category : Option String
  valid_from : PyDateTime
deriving DecidableEq, Repr

instance {ε α : Type} [DecidableEq ε] [DecidableEq α] : DecidableEq (Except ε α) := fun x y =>
  match x, y with
  | Except.ok a, Except.ok b =>
    if h : a = b then Decidable.isTrue (h ▸ rfl)
    else Decidable.isFalse (fun hh => h (Except.ok.inj hh))
  | Except.error a, Except.error b =>
    if h : a = b then Decidable.isTrue (h ▸ rfl)
    else Decidable.isFalse (fun hh => h (Except.error.inj hh))
  | Except.ok _, Except.error _ => Decidable.isFalse Except.noConfusion
  | Except.error _, Except.ok _ => Decidable.isFalse Except.noConfusion

/-- Split a character list at every slash, the way the format walks over
the `%m/%d/%Y` fields. -/
def splitOnSlash : List Char → List (List Char)
  | [] => [[]]
  | c :: rest =>
    match splitOnSlash rest with
    | [] => [[]]
    | g :: gs => if c = '/' then [] :: g :: gs else (c :: g) :: gs

/-- Read a nonempty all-digit character list as a number. -/
def charsToNat? (cs : List Char) : Option Nat :=
  if cs ≠ [] ∧ cs.all (fun c => c.isDigit) then
    some (cs.foldl (fun n c => 10 * n + (c.toNat - 48)) 0)
  else none

/-- Number of days of a month, with leap years, as the chrono date
validation behind `str.to_datetime` accepts them. -/
def daysInMonth (y m : Nat) : Nat :=
  if m = 2 then
    if y % 4 = 0 && (y % 100 ≠ 0 || y % 400 = 0) then 29 else 28
  else if m = 4 || m = 6 || m = 9 || m = 11 then 30
  else 31

/-- Parse of one cell under the format `New - %m/%d/%Y` of line 77: the
literal prefix `New - `, then month, day and four-digit year separated by
slashes, validated as a calendar date; the produced datetime is midnight. -/
def parseNewDate (s : String) : Option PyDateTime :=
  match s.data with
  | 'N' :: 'e' :: 'w' :: ' ' :: '-' :: ' ' :: rest =>
    match splitOnSlash rest with
    | [ms, ds, ys] =>
      match charsToNat? ms, charsToNat? ds, charsToNat? ys with
      | some m, some d, some y =>
        if ms.length ≤ 2 ∧ ds.length ≤ 2 ∧ ys.length = 4 ∧
            1 ≤ m ∧ m ≤ 12 ∧ 1 ≤ d ∧ d ≤ daysInMonth y m then
          some ⟨y, m, d, 0, 0, 0⟩
        else none
      | _, _, _ => none
    | _ => none
  | _ => none

/-- Strict series conversion `.str.to_datetime('New - %m/%d/%Y')` of
line 77: null cells stay null, a non-null cell that fails to parse raises
a `ComputeError` for the whole column. -/
def toDatetimeStrict : List (Option String) → Except String (List (Option PyDateTime))
  | [] => Except.ok []
  | none :: rest => (toDatetimeStrict rest).map (fun l => none :: l)
  | some s :: rest =>
    match parseNewDate s with
    | some d => (toDatetimeStrict rest).map (fun l => some d :: l)
    | none => Except.error ("ComputeError: strict conversion from str to datetime failed")

/-- Join-key comparison of the left join of lines 69-74: `Store` against
`Restaurant name` and `Product category` against `Restaurant original
category`; a null key on the left never matches (`join_nulls=False`). -/
def catKeyMatch (l : RawRow) (c : CatRow) : Bool :=
  l.store.isSome && l.productCategory.isSome &&
    decide (c.restaurantName = l.store ∧ c.restaurantOriginalCategory = l.productCategory)

/-- Left join of lines 69-74.  Each left row is kept once per matching
reference row, or once with a null right side when nothing matches; the
right key columns are dropped by polars, so the right side contributes no
further column, only the optional matched row. -/
def leftJoin (raw : List RawRow) (cats : List CatRow) : List (RawRow × Option CatRow) :=
  raw.flatMap fun l =>
    match cats.filter (catKeyMatch l) with
    | [] => [(l, none)]
    | ms => ms.map fun c => (l, some c)

/-- Attachment of a series to a frame by `with_columns` (lines 75-80): the
series must have the height of the frame, except that a unit-length series
is broadcast; any other length raises a `ShapeError`. -/
def withSeries {α β : Type} (df : List α) (s : List β) : Except String (List (α × β)) :=
  if s.length = df.length then Except.ok (df.zip s)
  else
    match s with
    | [b] => Except.ok (df.map fun a => (a, b))
    | _ => Except.error ("ShapeError: unable to add a column of different length to the DataFrame")

/-- Filter predicate of lines 81-85: `Product Name`, `Ingredients on
Product Page` and `Store` must be non-null. -/
def mandatoryOk (r : RawRow) : Bool :=
  r.productName.isSome && r.ingredients.isSome && r.store.isSome

/-- Projection and rename of lines 86-102: the seven canonical columns,
all taken from the menu-items columns plus the derived `valid_from`. -/
def projectRename (r : RawRow) (d : PyDateTime) : CleanRow :=
  { name := r.productName
    ingredients := r.ingredients
    allergens := r.allergens
    picture := r.pictureUrl
    restaurant := r.store
    category := r.figCategory1
    valid_from := d }

/-- The series of lines 75-80 before attachment: strict parse of the raw
blank-header column, then `fill_null` with the fixed default instant.  The
series is built from `menu_items_raw`, not from the join result, and has
one entry per raw row. -/
def validFromColumn (raw : List RawRow) : Except String (List PyDateTime) :=
  (toDatetimeStrict (raw.map fun r => r.dateStr)).map
    (fun ds => ds.map (fun d => d.getD defaultValidFrom))

/-- The whole cleaning stage `menu_items_clean` of lines 67-104: left join,
derivation of `valid_from` from the raw date column attached positionally,
mandatory-field filter, projection and rename, exact deduplication. -/
def cleaner (raw : List RawRow) (cats : List CatRow) : Except String (List CleanRow) := do
  let joined := leftJoin raw cats
  let validFrom ← validFromColumn raw
  let aug ← withSeries joined validFrom
  let filtered := aug.filter fun p => mandatoryOk p.1.1
  return (filtered.map fun p => projectRename p.1.1 p.2).dedup

/-- Variant of the cleaning stage with the join step removed, used to state
the refinement claim that the join contributes nothing to the seven
projected columns: identical to `cleaner` except that the frame entering
`with_columns` is the raw menu-items table itself. -/
def cleanerNoJoin (raw : List RawRow) : Except String (List CleanRow) := do
  let validFrom ← validFromColumn raw
  let aug ← withSeries raw validFrom
  let filtered := aug.filter fun p => mandatoryOk p.1
  return (filtered.map fun p => projectRename p.1 p.2).dedup

/-- One cell of the date column parses or is null; rows for which this
holds are those the strict conversion accepts. -/
def dateParses : Option String → Bool
  | none => true
  | some s => (parseNewDate s).isSome

/-! ### Normalization (lines 107-142) -/

/-- Lexicographic comparison of character lists by code point, the order
polars uses on string columns. -/
def charsLe : List Char → List Char → Bool
  | [], _ => true
  | _ :: _, [] => false
  | a :: as, b :: bs =>
    if a.toNat < b.toNat then true
    else if a.toNat = b.toNat then charsLe as bs
    else false

/-- Lexicographic string comparison. -/
def strLeB (a b : String) : Bool := charsLe a.data b.data

/-- Boolean comparison of nullable strings with nulls first, the ascending
order used by `sort` in polars (default `nulls_last=False`). -/
def optStrLeB : Option String → Option String → Bool
  | none, _ => true
  | some _, none => false
  | some x, some y => strLeB x y

/-- Order on nullable strings induced by `optStrLeB`. -/
def optStrLe (a b : Option String) : Prop := optStrLeB a b = true

instance : DecidableRel optStrLe := fun a b => inferInstanceAs (Decidable (_ = true))

/-- The `restaurants` projection of lines 108-114: the distinct values of
the `restaurant` column, renamed to `name` and sorted ascending. -/
def restaurantsTbl (clean : List CleanRow) : List (Option String) :=
  List.insertionSort optStrLe ((clean.map (fun r => r.restaurant)).dedup)

/-- A row of the `menu_items` projection of lines 116-120. -/
structure MenuItemRow where
  name : Option String
  restaurant : Option String
  category : Option String
deriving DecidableEq, Repr

/-- The `menu_items` projection of lines 116-120: distinct
`(name, restaurant, category)` triples. -/
def menuItemsTbl (clean : List CleanRow) : List MenuItemRow :=
  (clean.map fun r => ⟨r.name, r.restaurant, r.category⟩).dedup

/-- A row of the `pictures`, `ingredients` or `allergens` projections of
lines 121-141: the product name (renamed from `name`), the restaurant and
the respective payload column. -/
structure ChildSrcRow where
  product : Option String
  restaurant : Option String
  payload : Option String
deriving DecidableEq, Repr

/-- The `pictures` projection of lines 121-126, payload column `picture`. -/
def picturesTbl (clean : List CleanRow) : List ChildSrcRow :=
  (clean.map fun r => ⟨r.name, r.restaurant, r.picture⟩).dedup

/-- The `ingredients` projection of lines 130-135, payload column
`ingredients`. -/
def ingredientsTbl (clean : List CleanRow) : List ChildSrcRow :=
  (clean.map fun r => ⟨r.name, r.restaurant, r.ingredients⟩).dedup

/-- The `allergens` projection of lines 136-141, payload column
`allergens`. -/
def allergensTbl (clean : List CleanRow) : List ChildSrcRow :=
  (clean.map fun r => ⟨r.name, r.restaurant, r.allergens⟩).dedup

/-! ### Destination schema (lines 12-49)

SQLAlchemy `Column` defaults: a column is nullable unless `nullable=False`
or `primary_key=True` is given, and carries no unique constraint unless
`unique=True` is given. -/

/-- The constraints a destination column declares. -/
structure ColumnSpec where
  nullable : Bool
  uniqueCons : Bool
deriving DecidableEq, Repr

/-- Line 16, `name = Column(String)`: nullable and without a unique
constraint. -/
def restaurantsNameColumn : ColumnSpec := { nullable := true, uniqueCons := false }

/-- Line 23, `restaurant_id = Column(Integer, ForeignKey(...), nullable=False)`. -/
def menuItemsRestaurantIdColumn : ColumnSpec := { nullable := false, uniqueCons := false }

/-- Lines 32, 40 and 48, `item_id = Column(Integer, ForeignKey(...),
nullable=False)`, identical in the three child tables. -/
def childItemIdColumn : ColumnSpec := { nullable := false, uniqueCons := false }

/-! ### Load (lines 144-252) -/

/-- A row read back from `restaurant_data.restaurants` on line 172. -/
structure RestaurantsPkRow where
  id : Int
  name : Option String
deriving DecidableEq, Repr

/-- The dictionary `restaurants_id_map` of line 173, built by a Python dict
comprehension over `zip(name, id)`: the underlying association list, where
a later pair with the same key overwrites an earlier one. -/
def restaurantsIdMap (pk : List RestaurantsPkRow) : List (Option String × Int) :=
  pk.map fun r => (r.name, r.id)

/-- Lookup in a dict built from an association list: the last binding of a
key wins, absent keys give none. -/
def dictLookup (m : List (Option String × Int)) (k : Option String) : Option Int :=
  (m.reverse.find? fun p => decide (p.1 = k)).map fun p => p.2

/-- Read a decimal integer with an optional sign, as the polars string to
`Int64` cast accepts it. -/
def strToInt? (s : String) : Option Int :=
  match s.data with
  | '-' :: rest => (charsToNat? rest).map (fun n => -(n : Int))
  | '+' :: rest => (charsToNat? rest).map (fun n => (n : Int))
  | cs => (charsToNat? cs).map (fun n => (n : Int))

/-- Non-strict polars cast of a string cell to `Int64`: an unconvertible
value becomes null rather than raising. -/
def castStrToInt : Option String → Option Int
  | none => none
  | some s => strToInt? s

/-- The expression `pl.col(...).replace(restaurants_id_map,
return_dtype=pl.Int64)` of lines 180-182 (also 194-196, 215-217, 236-238)
applied to one cell: a cell matching a key of the mapping becomes the
mapped id, any other cell keeps its value cast non-strictly to `Int64`. -/
def replaceInt (m : List (Option String × Int)) (v : Option String) : Option Int :=
  match dictLookup m v with
  | some i => some i
  | none => castStrToInt v

/-- A row of the frame `menu_items_fk` of lines 177-187. -/
structure MenuItemFkRow where
  restaurant_id : Option Int
  name : Option String
  category : Option String
deriving DecidableEq, Repr

/-- Boolean strict comparison of nullable ids with nulls first. -/
def optIntLtB : Option Int → Option Int → Bool
  | none, none => false
  | none, some _ => true
  | some _, none => false
  | some x, some y => decide (x < y)

/-- Ascending order of `sort('restaurant_id', 'name')` on line 185:
lexicographic on the id, then the name, nulls first. -/
def mfkLe (a b : MenuItemFkRow) : Prop :=
  (optIntLtB a.restaurant_id b.restaurant_id ||
    (decide (a.restaurant_id = b.restaurant_id) && optStrLeB a.name b.name)) = true

instance : DecidableRel mfkLe := fun a b => inferInstanceAs (Decidable (_ = true))

/-- The frame `menu_items_fk` of lines 177-187: the restaurant column is
replaced by the resolved id, renamed to `restaurant_id`, and the frame is
sorted by `(restaurant_id, name)`. -/
def menuItemsFk (idMap : List (Option String × Int)) (items : List MenuItemRow) :
    List MenuItemFkRow :=
  List.insertionSort mfkLe
    (items.map fun r =>
      { restaurant_id := replaceInt idMap r.restaurant
        name := r.name
        category := r.category })

/-- The insert of line 188 into `restaurant_data.menu_items`: the table was
created from the `MenuItem` model, whose `restaurant_id` column is
`nullable=False`, so a row with a null id violates the not-null constraint
and the write raises an `IntegrityError`; otherwise the rows are appended. -/
def writeMenuItems (rows : List MenuItemFkRow) : Except String (List MenuItemFkRow) :=
  if rows.all fun r => r.restaurant_id.isSome || menuItemsRestaurantIdColumn.nullable then
    Except.ok rows
  else
    Except.error ("IntegrityError: null value in column restaurant_id violates not-null constraint")

/-- The insert of line 170 into `restaurant_data.restaurants` with append
semantics: the database assigns fresh serial ids past those present. -/
def insertRestaurants (db : List RestaurantsPkRow) (names : List (Option String)) :
    List RestaurantsPkRow :=
  let next := (db.foldl (fun m r => max m r.id) 0) + 1
  db ++ (names.enum.map fun p => { id := next + Int.ofNat p.1, name := p.2 })

/-- A row read back from `restaurant_data.menu_items` on line 189. -/
structure MenuItemsPkRow where
  id : Int
  restaurant_id : Option Int
  name : Option String
  category : Option String
deriving DecidableEq, Repr

/-- A row of the frames `ingredients_fk`, `allergens_fk` or `pictures_fk`
after the final select and rename: the resolved `item_id` and the payload
column. -/
structure ChildFkRow where
  item_id : Option Int
  payload : Option String
deriving DecidableEq, Repr

/-- Join-key comparison of the child left joins (lines 200-205, 221-226,
242-247): `(product, restaurant_id)` against `(name, restaurant_id)` of the
read-back menu items; null keys on the left never match. -/
def childKeyMatch (product : Option String) (rid : Option Int) (p : MenuItemsPkRow) : Bool :=
  product.isSome && rid.isSome &&
    decide (p.name = product ∧ p.restaurant_id = rid)

/-- Common shape of `ingredients_fk`, `allergens_fk` and `pictures_fk`
(lines 192-208, 213-229, 234-250): replace the restaurant name by its
resolved id, left-join against the read-back menu items on
`(product, restaurant_id)`, and keep `(item_id, payload)`. -/
def childFk (idMap : List (Option String × Int)) (pk : List MenuItemsPkRow)
    (rows : List ChildSrcRow) : List ChildFkRow :=
  rows.flatMap fun r =>
    let rid := replaceInt idMap r.restaurant
    match pk.filter (childKeyMatch r.product rid) with
    | [] => [{ item_id := none, payload := r.payload }]
    | ms => ms.map fun p => { item_id := some p.id, payload := r.payload }

/-- The frame `ingredients_fk` of lines 192-208. -/
def ingredientsFk (idMap : List (Option String × Int)) (pk : List MenuItemsPkRow)
    (rows : List ChildSrcRow) : List ChildFkRow :=
  childFk idMap pk rows

/-- The frame `allergens_fk` of lines 213-229. -/
def allergensFk (idMap : List (Option String × Int)) (pk : List MenuItemsPkRow)
    (rows : List ChildSrcRow) : List ChildFkRow :=
  childFk idMap pk rows

/-- The frame `pictures_fk` of lines 234-250. -/
def picturesFk (idMap : List (Option String × Int)) (pk : List MenuItemsPkRow)
    (rows : List ChildSrcRow) : List ChildFkRow :=
  childFk idMap pk rows

/-- The inserts of lines 210, 231 and 252 into the child tables: their
`item_id` columns are `nullable=False`, so a null id raises an
`IntegrityError`; otherwise the rows are appended. -/
def writeChildRows (rows : List ChildFkRow) : Except String (List ChildFkRow) :=
  if rows.all fun r => r.item_id.isSome || childItemIdColumn.nullable then
    Except.ok rows
  else
    Except.error ("IntegrityError: null value in column item_id violates not-null constraint")

/-! ### Concrete sample data used by witnesses and counterexamples -/

/-- A complete menu-items row in the shape of the Burger scenario of the
specification: mandatory fields present, a null date cell, category
`Main` from its own `Fig Category 1` column. -/
def exBurger : RawRow :=
  { productName := some "Burger"
    ingredients := some "beef, bun"
    allergens := none
    pictureUrl := none
    store := some "Joes Diner"
    productCategory := some "Entrees"
    figCategory1 := some "Main"
    dateStr := none }

/-- A reference row matching the Burger row on both join keys. -/
def exCatJoe : CatRow :=
  { restaurantName := some "Joes Diner", restaurantOriginalCategory := some "Entrees" }

/-- The cleaned row the Burger scenario produces. -/
def exCleanBurger : CleanRow := projectRename exBurger defaultValidFrom

/-- The Burger row with a date cell that does not follow the
`New - %m/%d/%Y` format. -/
def exBadDate : RawRow := { exBurger with dateStr := some "garbage" }

/-- A second complete raw row, from another restaurant, with a parseable
date cell. -/
def exDatedAl : RawRow :=
  { productName := some "Falafel"
    ingredients := some "chickpeas"
    allergens := some "sesame"
    pictureUrl := some "http://img/falafel"
    store := some "Al Cafe"
    productCategory := some "Mezze"
    figCategory1 := some "Starters"
    dateStr := some "New - 03/04/2023" }

/-- The cleaned row the `exDatedAl` scenario produces. -/
def exCleanAl : CleanRow := projectRename exDatedAl ⟨2023, 3, 4, 0, 0, 0⟩

/-- A menu-item projection row whose restaurant is absent from any
read-back mapping. -/
def exItemUnmatched : MenuItemRow :=
  { name := some "Burger", restaurant := some "Nowhere Cafe", category := some "Main" }

/-- A child-source row for the Burger ingredients. -/
def exChildSrc : ChildSrcRow :=
  { product := some "Burger", restaurant := some "Joes Diner", payload := some "beef, bun" }

/-- A read-back menu-items row holding the generated id of the Burger. -/
def exPk : MenuItemsPkRow :=
  { id := 5, restaurant_id := some 1, name := some "Burger", category := some "Main" }

/-! ### Order lemmas for the string comparison -/

theorem charsLe_nil_left (bs : List Char) : charsLe [] bs = true := rfl

theorem charsLe_cons_iff {a b : Char} {as bs : List Char} :
    charsLe (a :: as) (b :: bs) = true ↔
      a.toNat < b.toNat ∨ (a.toNat = b.toNat ∧ charsLe as bs = true) := by
  by_cases h1 : a.toNat < b.toNat <;> by_cases h2 : a.toNat = b.toNat <;>
    simp [charsLe, h1, h2]

theorem charsLe_total : ∀ as bs : List Char, charsLe as bs = true ∨ charsLe bs as = true := by
  intro as
  induction as with
  | nil => intro bs; left; rfl
  | cons a as ih =>
    intro bs
    cases bs with
    | nil => right; rfl
    | cons b bs =>
      rcases Nat.lt_trichotomy a.toNat b.toNat with h | h | h
      · left; rw [charsLe_cons_iff]; left; exact h
      · rcases ih bs with h' | h'
        · left; rw [charsLe_cons_iff]; right; exact ⟨h, h'⟩
        · right; rw [charsLe_cons_iff]; right; exact ⟨h.symm, h'⟩
      · right; rw [charsLe_cons_iff]; left; exact h

theorem charsLe_trans : ∀ as bs cs : List Char,
    charsLe as bs = true → charsLe bs cs = true → charsLe as cs = true := by
  intro as
  induction as with
  | nil => intro bs cs _ _; rfl
  | cons a as ih =>
    intro bs cs h1 h2
    cases bs with
    | nil => simp [charsLe] at h1
    | cons b bs =>
      cases cs with
      | nil => simp [charsLe] at h2
      | cons c cs =>
        rw [charsLe_cons_iff] at h1 h2 ⊢
        rcases h1 with h1 | ⟨h1e, h1r⟩
        · rcases h2 with h2 | ⟨h2e, _⟩
          · left; omega
          · left; omega
        · rcases h2 with h2 | ⟨h2e, h2r⟩
          · left; omega
          · right; exact ⟨by omega, ih bs cs h1r h2r⟩

theorem charsLe_antisymm : ∀ as bs : List Char,
    charsLe as bs = true → charsLe bs as = true → as = bs := by
  intro as
  induction as with
  | nil =>
    intro bs _ h2
    cases bs with
    | nil => rfl
    | cons b bs => simp [charsLe] at h2
  | cons a as ih =>
    intro bs h1 h2
    cases bs with
    | nil => simp [charsLe] at h1
    | cons b bs =>
      rw [charsLe_cons_iff] at h1 h2
      rcases h1 with h1 | ⟨h1e, h1r⟩
      · rcases h2 with h2 | ⟨h2e, _⟩ <;> omega
      · rcases h2 with h2 | ⟨h2e, h2r⟩
        · omega
        · have hab : a = b := Char.ext (UInt32.ext h1e)
          rw [hab, ih bs h1r h2r]

instance : IsTotal (Option String) optStrLe := by
  constructor
  intro a b
  cases a with
  | none => left; rfl
  | some x =>
    cases b with
    | none => right; rfl
    | some y =>
      have := charsLe_total x.data y.data
      simpa [optStrLe, optStrLeB, strLeB] using this

instance : IsTrans (Option String) optStrLe := by
  constructor
  intro a b c h1 h2
  cases a with
  | none => rfl
  | some x =>
    cases b with
    | none => simp [optStrLe, optStrLeB] at h1
    | some y =>
      cases c with
      | none => simp [optStrLe, optStrLeB] at h2
      | some z =>
        simp only [optStrLe, optStrLeB, strLeB] at h1 h2 ⊢
        exact charsLe_trans x.data y.data z.data h1 h2

instance : IsAntisymm (Option String) optStrLe := by
  constructor
  intro a b h1 h2
  cases a with
  | none =>
    cases b with
    | none => rfl
    | some y => simp [optStrLe, optStrLeB] at h2
  | some x =>
    cases b with
    | none => simp [optStrLe, optStrLeB] at h1
    | some y =>
      simp only [optStrLe, optStrLeB, strLeB] at h1 h2
      exact congrArg some (String.ext (charsLe_antisymm x.data y.data h1 h2))

/-! ### Lemmas about the date series -/

theorem toDatetimeStrict_ok_of_all_parse (l : List (Option String))
    (h : l.all dateParses = true) :
    toDatetimeStrict l = Except.ok (l.map fun o => o.bind parseNewDate) := by
  induction l with
  | nil => rfl
  | cons o rest ih =>
    rw [List.all_cons, Bool.and_eq_true] at h
    cases o with
    | none =>
      simp only [toDatetimeStrict, ih h.2, Except.map, List.map]
      rfl
    | some s =>
      have hp : (parseNewDate s).isSome = true := h.1
      cases hd : parseNewDate s with
      | none => rw [hd] at hp; simp at hp
      | some d =>
        simp only [toDatetimeStrict, hd, ih h.2, Except.map, List.map, Option.bind]

theorem toDatetimeStrict_length {l : List (Option String)}
    {ds : List (Option PyDateTime)} (h : toDatetimeStrict l = Except.ok ds) :
    ds.length = l.length := by
  induction l generalizing ds with
  | nil => cases h; rfl
  | cons o rest ih =>
    cases o with
    | none =>
      cases hr : toDatetimeStrict rest with
      | error e => rw [toDatetimeStrict, hr] at h; cases h
      | ok tl =>
        rw [toDatetimeStrict, hr] at h
        cases h
        simp [ih hr]
    | some s =>
      cases hd : parseNewDate s with
      | none => rw [toDatetimeStrict, hd] at h; cases h
      | some d =>
        cases hr : toDatetimeStrict rest with
        | error e => rw [toDatetimeStrict, hd, hr] at h; cases h
        | ok tl =>
          rw [toDatetimeStrict, hd, hr] at h
          cases h
          simp [ih hr]

theorem validFromColumn_length {raw : List RawRow} {vf : List PyDateTime}
    (h : validFromColumn raw = Except.ok vf) : vf.length = raw.length := by
  unfold validFromColumn at h
  cases hr : toDatetimeStrict (raw.map fun r => r.dateStr) with
  | error e => rw [hr] at h; cases h
  | ok ds =>
    rw [hr] at h
    cases h
    rw [List.length_map, toDatetimeStrict_length hr, List.length_map]

theorem validFromColumn_of_all_parse (raw : List RawRow)
    (h : (raw.map fun r => r.dateStr).all dateParses = true) :
    validFromColumn raw =
      Except.ok (raw.map fun r => (r.dateStr.bind parseNewDate).getD defaultValidFrom) := by
  unfold validFromColumn
  rw [toDatetimeStrict_ok_of_all_parse _ h]
  simp [Except.map, List.map_map, Function.comp]

/-! ### Lemmas about series attachment -/

theorem withSeries_ok_of_length_eq {α β : Type} {df : List α} {s : List β}
    (h : s.length = df.length) : withSeries df s = Except.ok (df.zip s) := by
  simp [withSeries, h]

theorem withSeries_error {α β : Type} {df : List α} {s : List β}
    (h : s.length ≠ df.length) (h1 : s.length ≠ 1) :
    withSeries df s =
      Except.error ("ShapeError: unable to add a column of different length to the DataFrame") := by
  rcases s with _ | ⟨b, _ | ⟨c, t⟩⟩
  · unfold withSeries
    rw [if_neg h]
  · exact absurd rfl h1
  · unfold withSeries
    rw [if_neg h]

theorem withSeries_mem_fst {α β : Type} {df : List α} {s : List β}
    {aug : List (α × β)} (h : withSeries df s = Except.ok aug) :
    ∀ p ∈ aug, p.1 ∈ df := by
  intro p hp
  unfold withSeries at h
  by_cases hl : s.length = df.length
  · rw [if_pos hl] at h
    cases h
    exact (List.of_mem_zip hp).1
  · rw [if_neg hl] at h
    rcases s with _ | ⟨b, _ | ⟨c, t⟩⟩
    · cases h
    · cases h
      rcases List.mem_map.mp hp with ⟨a, ha, rfl⟩
      exact ha
    · cases h

theorem zip_pair_of_length_eq {α β : Type} :
    ∀ (l1 : List α) (l2 : List β), l1.length = l2.length →
      ∀ a ∈ l1, ∃ b, (a, b) ∈ l1.zip l2 := by
  intro l1
  induction l1 with
  | nil => intro l2 _ a ha; cases ha
  | cons x xs ih =>
    intro l2 hl a ha
    cases l2 with
    | nil => simp at hl
    | cons y ys =>
      rcases List.mem_cons.mp ha with rfl | ha
      · exact ⟨y, List.mem_cons_self _ _⟩
      · rcases ih ys (by simpa using hl) a ha with ⟨b, hb⟩
        exact ⟨b, List.mem_cons_of_mem _ hb⟩

theorem withSeries_pair {α β : Type} {df : List α} {s : List β}
    {aug : List (α × β)} (h : withSeries df s = Except.ok aug) :
    ∀ a ∈ df, ∃ b, (a, b) ∈ aug := by
  intro a ha
  unfold withSeries at h
  by_cases hl : s.length = df.length
  · rw [if_pos hl] at h
    cases h
    exact zip_pair_of_length_eq df s hl.symm a ha
  · rw [if_neg hl] at h
    rcases s with _ | ⟨b, _ | ⟨c, t⟩⟩
    · cases h
    · cases h
      exact ⟨b, List.mem_map.mpr ⟨a, ha, rfl⟩⟩
    · cases h

/-! ### Lemmas about the left join -/

theorem leftJoin_cons (l : RawRow) (raw : List RawRow) (cats : List CatRow) :
    leftJoin (l :: raw) cats =
      (match cats.filter (catKeyMatch l) with
        | [] => [(l, none)]
        | ms => ms.map fun c => (l, some c)) ++ leftJoin raw cats := by
  rfl

theorem leftJoin_block_length_pos (l : RawRow) (cats : List CatRow) :
    0 < (match cats.filter (catKeyMatch l) with
          | [] => [(l, (none : Option CatRow))]
          | ms => ms.map fun c => (l, some c)).length := by
  cases hf : cats.filter (catKeyMatch l) with
  | nil => simp
  | cons c ms => simp

theorem leftJoin_length_ge (raw : List RawRow) (cats : List CatRow) :
    raw.length ≤ (leftJoin raw cats).length := by
  induction raw with
  | nil => simp [leftJoin]
  | cons l rest ih =>
    rw [leftJoin_cons, List.length_append, List.length_cons]
    have := leftJoin_block_length_pos l cats
    omega

theorem leftJoin_map_fst_of_length_eq {raw : List RawRow} {cats : List CatRow}
    (h : (leftJoin raw cats).length = raw.length) :
    (leftJoin raw cats).map Prod.fst = raw := by
  induction raw with
  | nil => rfl
  | cons l rest ih =>
    rw [leftJoin_cons] at h ⊢
    rw [List.length_append, List.length_cons] at h
    have hrest := leftJoin_length_ge rest cats
    have hpos := leftJoin_block_length_pos l cats
    have hblock : (match cats.filter (catKeyMatch l) with
        | [] => [(l, (none : Option CatRow))]
        | ms => ms.map fun c => (l, some c)).length = 1 := by omega
    have hrlen : (leftJoin rest cats).length = rest.length := by omega
    rw [List.map_append, ih hrlen]
    cases hf : cats.filter (catKeyMatch l) with
    | nil => simp
    | cons c ms =>
      rw [hf] at hblock
      simp only [List.length_map, List.length_cons] at hblock
      have : ms = [] := List.length_eq_zero.mp (by omega)
      subst this
      simp

theorem mem_leftJoin_of_nomatch {raw : List RawRow} {cats : List CatRow}
    {r : RawRow} (hr : r ∈ raw) (hf : cats.filter (catKeyMatch r) = []) :
    (r, (none : Option CatRow)) ∈ leftJoin raw cats := by
  unfold leftJoin
  rw [List.mem_flatMap]
  refine ⟨r, hr, ?_⟩
  rw [hf]
  simp

/-! ### Structure of the cleaning stage -/

theorem cleaner_eq (raw : List RawRow) (cats : List CatRow) :
    cleaner raw cats =
      Except.bind (validFromColumn raw) (fun vf =>
        Except.bind (withSeries (leftJoin raw cats) vf) (fun aug =>
          Except.ok
            (((aug.filter fun p => mandatoryOk p.1.1).map
              fun p => projectRename p.1.1 p.2).dedup))) := rfl

theorem cleanerNoJoin_eq (raw : List RawRow) :
    cleanerNoJoin raw =
      Except.bind (validFromColumn raw) (fun vf =>
        Except.bind (withSeries raw vf) (fun aug =>
          Except.ok
            (((aug.filter fun p => mandatoryOk p.1).map
              fun p => projectRename p.1 p.2).dedup))) := rfl

theorem cleaner_ok_elim {raw : List RawRow} {cats : List CatRow} {clean : List CleanRow}
    (h : cleaner raw cats = Except.ok clean) :
    ∃ vf aug, validFromColumn raw = Except.ok vf ∧
      withSeries (leftJoin raw cats) vf = Except.ok aug ∧
      clean = ((aug.filter fun p => mandatoryOk p.1.1).map
        fun p => projectRename p.1.1 p.2).dedup := by
  rw [cleaner_eq] at h
  cases hv : validFromColumn raw with
  | error e => rw [hv] at h; cases h
  | ok vf =>
    rw [hv] at h
    simp only [Except.bind] at h
    cases hw : withSeries (leftJoin raw cats) vf with
    | error e => rw [hw] at h; cases h
    | ok aug =>
      rw [hw] at h
      cases h
      exact ⟨vf, aug, rfl, hw, rfl⟩

theorem cleaner_mem_structure {raw : List RawRow} {cats : List CatRow} {clean : List CleanRow}
    (h : cleaner raw cats = Except.ok clean) :
    ∀ row ∈ clean, ∃ jr d, jr ∈ leftJoin raw cats ∧ mandatoryOk jr.1 = true ∧
      row = projectRename jr.1 d := by
  rcases cleaner_ok_elim h with ⟨vf, aug, _, hw, rfl⟩
  intro row hrow
  rw [List.mem_dedup] at hrow
  rcases List.mem_map.mp hrow with ⟨p, hp, rfl⟩
  rw [List.mem_filter] at hp
  exact ⟨p.1, p.2, withSeries_mem_fst hw p hp.1, hp.2, rfl⟩

theorem cleaner_retains {raw : List RawRow} {cats : List CatRow} {clean : List CleanRow}
    {r : RawRow} (h : cleaner raw cats = Except.ok clean) (hr : r ∈ raw)
    (hnm : cats.filter (catKeyMatch r) = []) (hm : mandatoryOk r = true) :
    ∃ d, projectRename r d ∈ clean := by
  rcases cleaner_ok_elim h with ⟨vf, aug, _, hw, rfl⟩
  have hj : (r, (none : Option CatRow)) ∈ leftJoin raw cats :=
    mem_leftJoin_of_nomatch hr hnm
  rcases withSeries_pair hw _ hj with ⟨d, hd⟩
  refine ⟨d, ?_⟩
  rw [List.mem_dedup]
  exact List.mem_map.mpr ⟨((r, none), d), List.mem_filter.mpr ⟨hd, hm⟩, rfl⟩

theorem filter_project_transport :
    ∀ (js : List (RawRow × Option CatRow)) (vf : List PyDateTime),
      (((js.zip vf).filter fun p => mandatoryOk p.1.1).map fun p => projectRename p.1.1 p.2) =
      ((((js.map Prod.fst).zip vf).filter fun p => mandatoryOk p.1).map
        fun p => projectRename p.1 p.2) := by
  intro js
  induction js with
  | nil => intro vf; rfl
  | cons j js ih =>
    intro vf
    cases vf with
    | nil => rfl
    | cons d vf =>
      by_cases hm : mandatoryOk j.1 = true <;>
        simp [List.zip_cons_cons, List.filter_cons, hm, ih]

/-! ### Facts about the restaurants projection -/

theorem restaurantsTbl_sorted (clean : List CleanRow) :
    List.Sorted optStrLe (restaurantsTbl clean) :=
  List.sorted_insertionSort optStrLe _

theorem restaurantsTbl_nodup (clean : List CleanRow) :
    (restaurantsTbl clean).Nodup :=
  (List.perm_insertionSort optStrLe _).nodup_iff.mpr (List.nodup_dedup _)

theorem restaurantsTbl_mem_iff (clean : List CleanRow) (x : Option String) :
    x ∈ restaurantsTbl clean ↔ x ∈ clean.map fun r => r.restaurant := by
  unfold restaurantsTbl
  rw [List.mem_insertionSort, List.mem_dedup]

theorem restaurantsTbl_perm_invariant {clean clean' : List CleanRow}
    (h : (clean.map fun r => r.restaurant).Perm (clean'.map fun r => r.restaurant)) :
    restaurantsTbl clean = restaurantsTbl clean' := by
  apply List.eq_of_perm_of_sorted (r := optStrLe)
  · exact ((List.perm_insertionSort optStrLe _).trans h.dedup).trans
      (List.perm_insertionSort optStrLe _).symm
  · exact restaurantsTbl_sorted clean
  · exact restaurantsTbl_sorted clean'

/-! ### Facts about the foreign-key frames -/

theorem childFk_item_id {idMap : List (Option String × Int)} {pk : List MenuItemsPkRow}
    {rows : List ChildSrcRow} :
    ∀ row ∈ childFk idMap pk rows,
      row.item_id = none ∨ ∃ p, p ∈ pk ∧ row.item_id = some p.id := by
  intro row hrow
  unfold childFk at hrow
  rcases List.mem_flatMap.mp hrow with ⟨r, _, hb⟩
  dsimp only at hb
  cases hf : pk.filter (childKeyMatch r.product (replaceInt idMap r.restaurant)) with
  | nil =>
    rw [hf] at hb
    rcases List.mem_singleton.mp hb with rfl
    left; rfl
  | cons q ms =>
    rw [hf] at hb
    rcases List.mem_map.mp hb with ⟨p, hp, rfl⟩
    right
    have hp' : p ∈ pk.filter (childKeyMatch r.product (replaceInt idMap r.restaurant)) := by
      rw [hf]; exact hp
    exact ⟨p, List.mem_of_mem_filter hp', rfl⟩

theorem menuItemsFk_mem (idMap : List (Option String × Int)) {items : List MenuItemRow}
    {r : MenuItemRow} (hr : r ∈ items) :
    ({ restaurant_id := replaceInt idMap r.restaurant
       name := r.name
       category := r.category } : MenuItemFkRow) ∈ menuItemsFk idMap items := by
  unfold menuItemsFk
  rw [List.mem_insertionSort]
  exact List.mem_map.mpr ⟨r, hr, rfl⟩

theorem writeMenuItems_error_of_null {rows : List MenuItemFkRow}
    (h : ∃ fkr ∈ rows, fkr.restaurant_id = none) :
    writeMenuItems rows =
      Except.error
        ("IntegrityError: null value in column restaurant_id violates not-null constraint") := by
  unfold writeMenuItems
  rw [if_neg]
  intro hall
  rcases h with ⟨fkr, hmem, hnull⟩
  have := List.all_eq_true.mp hall fkr hmem
  rw [hnull] at this
  simp [menuItemsRestaurantIdColumn] at this

theorem writeChildRows_error_of_null {rows : List ChildFkRow}
    (h : ∃ fkr ∈ rows, fkr.item_id = none) :
    writeChildRows rows =
      Except.error
        ("IntegrityError: null value in column item_id violates not-null constraint") := by
  unfold writeChildRows
  rw [if_neg]
  intro hall
  rcases h with ⟨fkr, hmem, hnull⟩
  have := List.all_eq_true.mp hall fkr hmem
  rw [hnull] at this
  simp [childItemIdColumn] at this

theorem childFk_mem_of_nomatch (idMap : List (Option String × Int)) (pk : List MenuItemsPkRow)
    {rows : List ChildSrcRow} {cr : ChildSrcRow} (hcr : cr ∈ rows)
    (hnm : pk.filter (childKeyMatch cr.product (replaceInt idMap cr.restaurant)) = []) :
    ({ item_id := none, payload := cr.payload } : ChildFkRow) ∈ childFk idMap pk rows := by
  unfold childFk
  rw [List.mem_flatMap]
  refine ⟨cr, hcr, ?_⟩
  dsimp only
  rw [hnm]
  simp

theorem cleaner_ok_of_lengths {raw : List RawRow} {cats : List CatRow} {vf : List PyDateTime}
    (hv : validFromColumn raw = Except.ok vf)
    (hlen : (leftJoin raw cats).length = raw.length) :
    cleaner raw cats = Except.ok
      (((((leftJoin raw cats).zip vf).filter fun p => mandatoryOk p.1.1).map
        fun p => projectRename p.1.1 p.2).dedup) := by
  rw [cleaner_eq, hv]
  simp only [Except.bind]
  rw [withSeries_ok_of_length_eq ((validFromColumn_length hv).trans hlen.symm)]

theorem insertRestaurants_names (db : List RestaurantsPkRow) (names : List (Option String)) :
    (insertRestaurants db names).map (fun r => r.name) =
      db.map (fun r => r.name) ++ names := by
  unfold insertRestaurants
  rw [List.map_append, List.map_map]
  congr 1
  exact List.enum_map_snd names

/-! ### Claim C3 -/

/-- C3: every row of the cleaned table has non-null `name`, `ingredients`
and `restaurant`, and each of the five normalized tables contains only
projections of cleaned rows, so a source row missing a mandatory field is
dropped and reaches none of the five output tables. -/
theorem clean_mandatory_nonnull_and_outputs_from_clean
    (raw : List RawRow) (cats : List CatRow) (clean : List CleanRow)
    (h : cleaner raw cats = Except.ok clean) :
    (∀ row ∈ clean, row.name.isSome = true ∧ row.ingredients.isSome = true ∧
      row.restaurant.isSome = true) ∧
    (∀ x ∈ restaurantsTbl clean, ∃ row ∈ clean, x = row.restaurant) ∧
    (∀ q ∈ menuItemsTbl clean, ∃ row ∈ clean,
      q = ({ name := row.name, restaurant := row.restaurant,
             category := row.category } : MenuItemRow)) ∧
    (∀ q ∈ picturesTbl clean, ∃ row ∈ clean,
      q = ({ product := row.name, restaurant := row.restaurant,
             payload := row.picture } : ChildSrcRow)) ∧
    (∀ q ∈ ingredientsTbl clean, ∃ row ∈ clean,
      q = ({ product := row.name, restaurant := row.restaurant,
             payload := row.ingredients } : ChildSrcRow)) ∧
    (∀ q ∈ allergensTbl clean, ∃ row ∈ clean,
      q = ({ product := row.name, restaurant := row.restaurant,
             payload := row.allergens } : ChildSrcRow)) := by
  refine ⟨?_, ?_, ?_, ?_, ?_, ?_⟩
  · intro row hrow
    rcases cleaner_mem_structure h row hrow with ⟨jr, d, _, hm, rfl⟩
    simp only [mandatoryOk, Bool.and_eq_true] at hm
    exact ⟨hm.1.1, hm.1.2, hm.2⟩
  · intro x hx
    rcases List.mem_map.mp ((restaurantsTbl_mem_iff clean x).mp hx) with ⟨row, hrow, rfl⟩
    exact ⟨row, hrow, rfl⟩
  · intro q hq
    rcases List.mem_map.mp (List.mem_dedup.mp hq) with ⟨row, hrow, rfl⟩
    exact ⟨row, hrow, rfl⟩
  · intro q hq
    rcases List.mem_map.mp (List.mem_dedup.mp hq) with ⟨row, hrow, rfl⟩
    exact ⟨row, hrow, rfl⟩
  · intro q hq
    rcases List.mem_map.mp (List.mem_dedup.mp hq) with ⟨row, hrow, rfl⟩
    exact ⟨row, hrow, rfl⟩
  · intro q hq
    rcases List.mem_map.mp (List.mem_dedup.mp hq) with ⟨row, hrow, rfl⟩
    exact ⟨row, hrow, rfl⟩

/-- C3 witness: the Burger run instantiated, its cleaned row has the three
mandatory fields non-null. -/
theorem clean_mandatory_nonnull_and_outputs_from_clean_witness :
    cleaner [exBurger] [] = Except.ok [exCleanBurger] ∧
    exCleanBurger.name.isSome = true ∧ exCleanBurger.ingredients.isSome = true ∧
    exCleanBurger.restaurant.isSome = true :=
  ⟨by decide,
    (clean_mandatory_nonnull_and_outputs_from_clean [exBurger] [] [exCleanBurger]
      (by decide)).1 exCleanBurger (List.mem_singleton.mpr rfl)⟩

/-! ### Claim C6 -/

/-- C6: every cleaned row is the projection and rename of some row of the
join result (paired with its attached `valid_from` value); the cleaning
stage only filters, deduplicates, projects and renames, and synthesizes no
row. -/
theorem clean_rows_from_join_result
    (raw : List RawRow) (cats : List CatRow) (clean : List CleanRow)
    (h : cleaner raw cats = Except.ok clean) :
    ∀ row ∈ clean, ∃ jr, jr ∈ leftJoin raw cats ∧ ∃ d, row = projectRename jr.1 d := by
  intro row hrow
  rcases cleaner_mem_structure h row hrow with ⟨jr, d, hj, _, rfl⟩
  exact ⟨jr, hj, d, rfl⟩

/-- C6 witness: the Burger cleaned row projects from a join-result row. -/
theorem clean_rows_from_join_result_witness :
    ∃ jr, jr ∈ leftJoin [exBurger] [] ∧ ∃ d, exCleanBurger = projectRename jr.1 d :=
  clean_rows_from_join_result [exBurger] [] [exCleanBurger] (by decide)
    exCleanBurger (List.mem_singleton.mpr rfl)

/-! ### Claim C5 -/

/-- C5 counterexample: the Burger row matches no reference row and is kept,
but its cleaned `category` is its own `Fig Category 1` value `Main`, not
null, refuting the claimed null category for unmatched rows. -/
theorem unmatched_row_category_not_null_cx :
    ([] : List CatRow).filter (catKeyMatch exBurger) = [] ∧
    cleaner [exBurger] [] = Except.ok [exCleanBurger] ∧
    exCleanBurger.category = some "Main" ∧ ¬ exCleanBurger.category = none := by
  decide

/-- C5 amended: a menu-items row with no matching reference row is kept in
the cleaned output rather than dropped, and its `category` field is the
value of its own `Fig Category 1` column (null only when that value is
null), because the join contributes nothing to the projected columns. -/
theorem unmatched_row_kept_with_own_category
    (raw : List RawRow) (cats : List CatRow) (clean : List CleanRow) (r : RawRow)
    (h : cleaner raw cats = Except.ok clean) (hr : r ∈ raw)
    (hnm : cats.filter (catKeyMatch r) = []) (hm : mandatoryOk r = true) :
    ∃ d, projectRename r d ∈ clean ∧ (projectRename r d).category = r.figCategory1 := by
  rcases cleaner_retains h hr hnm hm with ⟨d, hd⟩
  exact ⟨d, hd, rfl⟩

/-- C5 witness: the unmatched Burger row is kept with its own category. -/
theorem unmatched_row_kept_with_own_category_witness :
    ∃ d, projectRename exBurger d ∈ ([exCleanBurger] : List CleanRow) ∧
      (projectRename exBurger d).category = exBurger.figCategory1 :=
  unmatched_row_kept_with_own_category [exBurger] [] [exCleanBurger] exBurger
    (by decide) (List.mem_singleton.mpr rfl) rfl (by decide)

/-! ### Claim C7 -/

/-- C7: the restaurants projection is the distinct restaurant values of the
cleaned table sorted ascending with no duplicate, and it depends only on
the multiset of restaurant values, so re-running normalization on the same
cleaned input (in any order) yields the identical sorted list. -/
theorem restaurants_sorted_distinct_deterministic (clean clean' : List CleanRow) :
    List.Sorted optStrLe (restaurantsTbl clean) ∧
    (restaurantsTbl clean).Nodup ∧
    (∀ x, x ∈ restaurantsTbl clean ↔ x ∈ clean.map fun r => r.restaurant) ∧
    ((clean.map fun r => r.restaurant).Perm (clean'.map fun r => r.restaurant) →
      restaurantsTbl clean = restaurantsTbl clean') :=
  ⟨restaurantsTbl_sorted clean, restaurantsTbl_nodup clean,
    fun x => restaurantsTbl_mem_iff clean x, fun h => restaurantsTbl_perm_invariant h⟩

/-- C7 witness: two permuted cleaned tables give the same sorted restaurant
list. -/
theorem restaurants_sorted_distinct_deterministic_witness :
    restaurantsTbl [exCleanBurger, exCleanAl] = restaurantsTbl [exCleanAl, exCleanBurger] ∧
    List.Sorted optStrLe (restaurantsTbl [exCleanBurger, exCleanAl]) :=
  ⟨(restaurants_sorted_distinct_deterministic [exCleanBurger, exCleanAl]
      [exCleanAl, exCleanBurger]).2.2.2 (by decide),
    (restaurants_sorted_distinct_deterministic [exCleanBurger, exCleanAl] []).1⟩

/-! ### Claim C8 -/

/-- C8 counterexample: the `restaurants.name` column declares neither a
unique nor a not-null constraint, and running the load sequence twice on
the same cleaned input appends two rows with the same name, refuting the
claimed schema-and-load guarantee of uniqueness. -/
theorem restaurant_name_schema_and_rerun_duplicates_cx :
    restaurantsNameColumn.uniqueCons = false ∧
    restaurantsNameColumn.nullable = true ∧
    (insertRestaurants (insertRestaurants [] (restaurantsTbl [exCleanBurger]))
        (restaurantsTbl [exCleanBurger])).map (fun r => r.name) =
      [some "Joes Diner", some "Joes Diner"] ∧
    ¬ ((insertRestaurants (insertRestaurants [] (restaurantsTbl [exCleanBurger]))
        (restaurantsTbl [exCleanBurger])).map (fun r => r.name)).Nodup := by
  decide

/-- C8 amended: within a single run the restaurant names produced by
normalization are pairwise distinct and non-null, and the first-run insert
carries exactly those names; the schema itself declares no unique or
not-null constraint on `name`, and a re-run appends duplicates. -/
theorem restaurant_names_distinct_nonnull_single_run
    (raw : List RawRow) (cats : List CatRow) (clean : List CleanRow)
    (h : cleaner raw cats = Except.ok clean) :
    (restaurantsTbl clean).Nodup ∧
    (∀ x ∈ restaurantsTbl clean, x.isSome = true) ∧
    (insertRestaurants [] (restaurantsTbl clean)).map (fun r => r.name) =
      restaurantsTbl clean ∧
    restaurantsNameColumn.uniqueCons = false ∧
    restaurantsNameColumn.nullable = true := by
  refine ⟨restaurantsTbl_nodup clean, ?_, ?_, rfl, rfl⟩
  · intro x hx
    rcases List.mem_map.mp ((restaurantsTbl_mem_iff clean x).mp hx) with ⟨row, hrow, rfl⟩
    rcases cleaner_mem_structure h row hrow with ⟨jr, d, _, hm, rfl⟩
    simp only [mandatoryOk, Bool.and_eq_true] at hm
    exact hm.2
  · rw [insertRestaurants_names]
    rfl

/-- C8 witness: the single-run Burger load instantiated. -/
theorem restaurant_names_distinct_nonnull_single_run_witness :
    (restaurantsTbl [exCleanBurger]).Nodup ∧
    (some "Joes Diner" : Option String).isSome = true ∧
    (insertRestaurants [] (restaurantsTbl [exCleanBurger])).map (fun r => r.name) =
      restaurantsTbl [exCleanBurger] := by
  have h := restaurant_names_distinct_nonnull_single_run [exBurger] [] [exCleanBurger] (by decide)
  exact ⟨h.1, h.2.1 (some "Joes Diner") (by decide), h.2.2.1⟩

/-! ### Claim C4 -/

/-- C4: every `item_id` in the prepared ingredients, allergens and pictures
frames is null or equal to an id of a row of the read-back menu-items
table; a non-null dangling id never occurs. -/
theorem child_item_id_null_or_in_menu_items
    (idMap : List (Option String × Int)) (pk : List MenuItemsPkRow) (rows : List ChildSrcRow) :
    (∀ row ∈ ingredientsFk idMap pk rows,
      row.item_id = none ∨ ∃ p, p ∈ pk ∧ row.item_id = some p.id) ∧
    (∀ row ∈ allergensFk idMap pk rows,
      row.item_id = none ∨ ∃ p, p ∈ pk ∧ row.item_id = some p.id) ∧
    (∀ row ∈ picturesFk idMap pk rows,
      row.item_id = none ∨ ∃ p, p ∈ pk ∧ row.item_id = some p.id) :=
  ⟨fun row hrow => childFk_item_id row hrow, fun row hrow => childFk_item_id row hrow,
    fun row hrow => childFk_item_id row hrow⟩

/-- C4 witness: the resolved Burger ingredient row carries the id of the
read-back menu-item row. -/
theorem child_item_id_null_or_in_menu_items_witness :
    ({ item_id := some 5, payload := some "beef, bun" } : ChildFkRow).item_id = none ∨
      ∃ p, p ∈ [exPk] ∧
        ({ item_id := some 5, payload := some "beef, bun" } : ChildFkRow).item_id = some p.id :=
  (child_item_id_null_or_in_menu_items [(some "Joes Diner", 1)] [exPk] [exChildSrc]).1
    { item_id := some 5, payload := some "beef, bun" } (by decide)

/-! ### Claim C1 -/

/-- C1 counterexample: a menu item whose restaurant is absent from the id
mapping resolves to a null `restaurant_id`, and writing the frame then
raises an `IntegrityError` over the `nullable=False` column — the job
aborts instead of loading the row, refuting the claimed never-failing null
insert. -/
theorem unmatched_restaurant_write_aborts_cx :
    menuItemsFk [] [exItemUnmatched] =
      [{ restaurant_id := none, name := some "Burger", category := some "Main" }] ∧
    writeMenuItems (menuItemsFk [] [exItemUnmatched]) =
      Except.error
        ("IntegrityError: null value in column restaurant_id violates not-null constraint") := by
  decide

/-- C1 amended: an unmatched restaurant name (one the non-strict cast
cannot convert) yields a null `restaurant_id` in `menu_items_fk`, and an
unmatched `(product, restaurant_id)` pair yields a null `item_id` in a
child frame — the resolution itself rejects nothing — but the destination
columns are declared `nullable=False`, so writing such a frame raises an
`IntegrityError` and the job aborts instead of loading the row. -/
theorem unmatched_restaurant_null_fk_and_write_error
    (idMap : List (Option String × Int)) (items : List MenuItemRow) (r : MenuItemRow)
    (pk : List MenuItemsPkRow) (rows : List ChildSrcRow) (cr : ChildSrcRow)
    (hr : r ∈ items) (hnull : replaceInt idMap r.restaurant = none)
    (hcr : cr ∈ rows)
    (hcnm : pk.filter (childKeyMatch cr.product (replaceInt idMap cr.restaurant)) = []) :
    (∃ fkr, fkr ∈ menuItemsFk idMap items ∧ fkr.restaurant_id = none ∧ fkr.name = r.name) ∧
    writeMenuItems (menuItemsFk idMap items) =
      Except.error
        ("IntegrityError: null value in column restaurant_id violates not-null constraint") ∧
    ({ item_id := none, payload := cr.payload } : ChildFkRow) ∈ childFk idMap pk rows ∧
    writeChildRows (childFk idMap pk rows) =
      Except.error
        ("IntegrityError: null value in column item_id violates not-null constraint") := by
  have hmem := menuItemsFk_mem idMap hr
  have hfst : ({ restaurant_id := replaceInt idMap r.restaurant
                 name := r.name
                 category := r.category } : MenuItemFkRow).restaurant_id = none := hnull
  refine ⟨⟨_, hmem, hfst, rfl⟩, ?_, ?_, ?_⟩
  · exact writeMenuItems_error_of_null ⟨_, hmem, hfst⟩
  · exact childFk_mem_of_nomatch idMap pk hcr hcnm
  · exact writeChildRows_error_of_null ⟨_, childFk_mem_of_nomatch idMap pk hcr hcnm, rfl⟩

/-- C1 witness: the unmatched Burger item and ingredient instantiated. -/
theorem unmatched_restaurant_null_fk_and_write_error_witness :
    (∃ fkr, fkr ∈ menuItemsFk [] [exItemUnmatched] ∧ fkr.restaurant_id = none ∧
      fkr.name = some "Burger") ∧
    writeMenuItems (menuItemsFk [] [exItemUnmatched]) =
      Except.error
        ("IntegrityError: null value in column restaurant_id violates not-null constraint") ∧
    ({ item_id := none, payload := some "beef, bun" } : ChildFkRow) ∈ childFk [] [] [exChildSrc] ∧
    writeChildRows (childFk [] [] [exChildSrc]) =
      Except.error
        ("IntegrityError: null value in column item_id violates not-null constraint") :=
  unmatched_restaurant_null_fk_and_write_error [] [exItemUnmatched] exItemUnmatched
    [] [exChildSrc] exChildSrc (List.mem_singleton.mpr rfl) (by decide)
    (List.mem_singleton.mpr rfl) rfl

/-! ### Claim C2 -/

/-- C2 counterexample: a row whose date cell is non-null but unparseable
makes the whole cleaning stage raise a `ComputeError`, refuting the claim
that an unparseable date defaults and never fails a row. -/
theorem unparseable_date_fails_cleaning_cx :
    parseNewDate "garbage" = none ∧
    cleaner [exBadDate] [] =
      Except.error ("ComputeError: strict conversion from str to datetime failed") := by
  decide

/-- C2 amended: when every non-null date cell parses under the pattern, the
derived `valid_from` series is the parse of each cell with the fixed
default `2023-01-01T00:00:00` for missing cells, and the cleaning stage
succeeds; a non-null unparseable cell instead raises a strict-conversion
error for the whole stage. -/
theorem valid_from_parse_or_default_when_missing
    (raw : List RawRow) (cats : List CatRow)
    (hd : (raw.map fun r => r.dateStr).all dateParses = true)
    (hlen : (leftJoin raw cats).length = raw.length) :
    validFromColumn raw =
      Except.ok (raw.map fun r => (r.dateStr.bind parseNewDate).getD defaultValidFrom) ∧
    ∃ clean, cleaner raw cats = Except.ok clean := by
  have hv := validFromColumn_of_all_parse raw hd
  exact ⟨hv, _, cleaner_ok_of_lengths hv hlen⟩

/-- C2 witness: one missing and one parseable date cell instantiated. -/
theorem valid_from_parse_or_default_when_missing_witness :
    validFromColumn [exBurger, exDatedAl] =
      Except.ok ([exBurger, exDatedAl].map fun r =>
        (r.dateStr.bind parseNewDate).getD defaultValidFrom) ∧
    ∃ clean, cleaner [exBurger, exDatedAl] [] = Except.ok clean :=
  valid_from_parse_or_default_when_missing [exBurger, exDatedAl] [] (by decide) (by decide)

/-! ### Claim C9 -/

/-- C9: whenever the left join keeps the raw row count (and order), the
cleaning stage with the join step removed produces the same output table:
the joined reference columns never reach the seven projected fields, whose
`category` is the raw `Fig Category 1` column. -/
theorem cleaner_equals_cleaner_without_join
    (raw : List RawRow) (cats : List CatRow)
    (hlen : (leftJoin raw cats).length = raw.length) :
    cleaner raw cats = cleanerNoJoin raw := by
  rw [cleaner_eq, cleanerNoJoin_eq]
  cases hv : validFromColumn raw with
  | error e => rfl
  | ok vf =>
    simp only [Except.bind]
    have hvl : vf.length = raw.length := validFromColumn_length hv
    rw [withSeries_ok_of_length_eq (hvl.trans hlen.symm), withSeries_ok_of_length_eq hvl]
    have ht := filter_project_transport (leftJoin raw cats) vf
    rw [leftJoin_map_fst_of_length_eq hlen] at ht
    exact congrArg (fun l => Except.ok (List.dedup l)) ht

/-- C9 witness: a one-row table with a single matching reference row. -/
theorem cleaner_equals_cleaner_without_join_witness :
    (leftJoin [exBurger] [exCatJoe]).length = ([exBurger] : List RawRow).length ∧
    cleaner [exBurger] [exCatJoe] = cleanerNoJoin [exBurger] :=
  ⟨by decide, cleaner_equals_cleaner_without_join [exBurger] [exCatJoe] (by decide)⟩

/-! ### Claim C10 -/

/-- C10 counterexample: with a one-row raw table and a duplicated reference
key the join has two rows, yet the unit-length date series broadcasts and
the cleaning stage succeeds, refuting the claim that any join row count
different from the raw count fails with a length-mismatch error. -/
theorem broadcast_single_row_no_shape_error_cx :
    (leftJoin [exBurger] [exCatJoe, exCatJoe]).length = 2 ∧
    ([exBurger] : List RawRow).length = 1 ∧
    cleaner [exBurger] [exCatJoe, exCatJoe] = Except.ok [exCleanBurger] := by
  decide

/-- C10 amended: the `valid_from` series is built from the raw table and
attached positionally, so whenever the left join changes the row count and
the raw table does not have exactly one row (the unit-length broadcast
case), the cleaning stage fails with a `ShapeError` instead of producing an
output table. -/
theorem length_mismatch_shape_error
    (raw : List RawRow) (cats : List CatRow) (vf : List PyDateTime)
    (hv : validFromColumn raw = Except.ok vf)
    (hne : (leftJoin raw cats).length ≠ raw.length)
    (h1 : raw.length ≠ 1) :
    cleaner raw cats =
      Except.error ("ShapeError: unable to add a column of different length to the DataFrame") := by
  have hvl : vf.length = raw.length := validFromColumn_length hv
  rw [cleaner_eq, hv]
  simp only [Except.bind]
  rw [withSeries_error (by omega) (by omega)]

/-- C10 witness: a two-row raw table whose join has three rows fails with
the shape error. -/
theorem length_mismatch_shape_error_witness :
    validFromColumn [exBurger, exDatedAl] =
      Except.ok [defaultValidFrom, ⟨2023, 3, 4, 0, 0, 0⟩] ∧
    (leftJoin [exBurger, exDatedAl] [exCatJoe, exCatJoe]).length = 3 ∧
    cleaner [exBurger, exDatedAl] [exCatJoe, exCatJoe] =
      Except.error ("ShapeError: unable to add a column of different length to the DataFrame") :=
  ⟨by decide, by decide,
    length_mismatch_shape_error [exBurger, exDatedAl] [exCatJoe, exCatJoe]
      [defaultValidFrom, ⟨2023, 3, 4, 0, 0, 0⟩] (by decide) (by decide) (by decide)⟩
